import Mathlib

/-!
Execution coordinator (`executor/client.go`).


A shallow embedding of the three operations of the executor's client,
`RunContainer`, `DeleteContainer` and `Ping`, together with the helper
`handleDeleteError`.

The collaborators of the client (registry, warden client, transformer, the
constructor of sequences) are interfaces whose implementations live in other
packages; they are taken as parameters.  Everything the client can change or
produce is carried in an explicit `World`: the state of the registry, the state
of the warden backend, the dispatch channel, the entries written to the logger,
and (as instrumentation) the list of collaborator calls in the order they were
made.  The send on the dispatch channel is a blocking send: a call of
`RunContainer` either returns or is held in that send, and its `Outcome` says
which.
-/

namespace Executor

/-- Go `error` values.  `ContainerNotFound` and `StepsInvalid` are the two
package-level errors declared in `client.go`; `ErrContainerNotFound` is the
sentinel `registry.ErrContainerNotFound`; every other error value is
`other text`. A nil error is `none` in an `Option Error`. -/
inductive Error where
  | ContainerNotFound
  | StepsInvalid
  | ErrContainerNotFound
  | other (text : String)
  deriving DecidableEq, Repr

/-- Severity of a log record: `Infod`, `Warnd` and `Errord` of the logger. -/
inductive Severity where
  | info
  | warn
  | error
  deriving DecidableEq, Repr

/-- One record written to the logger.  `error` is the error whose text
(`err.Error()`) is stored under the key "error"; `message` is the record's
message. -/
structure LogEntry where
  level : Severity
  error : Error
  message : String
  deriving DecidableEq, Repr

/-- Modelled from the spec: the type `registry.Registration` is declared in the
registry package, which is not among the sources.  The client reads its fields
`ContainerHandle` and `Log`; the guid is the key the spec's data model gives
it.  `L` is the type of the log identity. -/
structure Registration (L : Type) where
  Guid : String
  ContainerHandle : String
  Log : L
  deriving DecidableEq, Repr

/-- The work item sent on the dispatch channel, with the four fields that
`RunContainer` fills in.  `Q` is the type of sequences; `Result` is the address
of the result slot (an index into `World.slots`). -/
structure DepotRunAction (L Q : Type) where
  CompleteURL : String
  Registration : Registration L
  Sequence : Q
  Result : Nat
  deriving DecidableEq, Repr

/-- The dispatch channel as its sender sees it.  `sent` lists the items the
channel has taken, oldest first.  `room` is the number of further sends the
channel will take: the free places of its buffer and the receives its reader
has yet to perform.  A nil channel, and an unbuffered or full channel that
nobody reads, have `room = 0`: a send on them never completes. -/
structure Chan (T : Type) where
  sent : List T
  room : Nat
  deriving DecidableEq, Repr

/-- How a call of `RunContainer` ends: it returns an error value (`none` for
nil), or it is held in the send on the dispatch channel and never returns. -/
inductive Outcome where
  | returned (err : Option Error)
  | blocked
  deriving DecidableEq, Repr

/-- A call made by the client on one of its collaborators, with its
arguments. -/
inductive Call (A K L : Type) where
  | FindByGuid (guid : String)
  | Delete (guid : String)
  | Lookup (handle : String)
  | Destroy (handle : String)
  | Ping
  | StepsFor (log : L) (actions : List A) (container : K) (result : Nat)
  deriving DecidableEq, Repr

/-- The interface `registry.Registry` as far as the client uses it, over a
registry state `ρ`.  `FindByGuid` is a query: it answers from the state and
leaves it as it is.  `Delete` returns its error (or nil) and the next state. -/
structure Registry (ρ L : Type) where
  FindByGuid : ρ → String → Except Error (Registration L)
  Delete : ρ → String → Option Error × ρ

/-- The interface `warden.Client` as far as the client uses it, over a backend
state `ω`; `K` is the type of containers.  `Lookup` and `Ping` are queries,
`Destroy` returns its error (or nil) and the next state. -/
structure WardenClient (ω K : Type) where
  Lookup : ω → String → Except Error K
  Destroy : ω → String → Option Error × ω
  Ping : ω → Option Error

/-- The transformer: `StepsFor log actions container result` builds the steps
of an action list (`A` actions, `S` steps); its last argument is the address of
the result slot. -/
structure Transformer (A K S L : Type) where
  StepsFor : L → List A → K → Nat → Except Error (List S)

/-- The struct `client`: its collaborators.  `sequenceNew` stands for
`sequence.New`, declared in the sequence package.  The channel `runActions` and
the output of `logger` are mutable and live in the `World`. -/
structure client (ρ ω A K S Q L : Type) where
  wardenClient : WardenClient ω K
  registry : Registry ρ L
  transformer : Transformer A K S L
  sequenceNew : List S → Q

/-- Everything a call of the client can read or change.  `runActions` is the
dispatch channel.  `log` lists
the records written to the logger, oldest first.  `calls` lists the calls made
on the collaborators, oldest first.  `slots` is the store of result slots, a
slot's address being its index. -/
structure World (ρ ω A K L Q : Type) where
  registry : ρ
  warden : ω
  runActions : Chan (DepotRunAction L Q)
  log : List LogEntry
  calls : List (Call A K L)
  slots : List String

variable {ρ ω A K S Q L : Type}

/-- Record a call on a collaborator. -/
def World.call (w : World ρ ω A K L Q) (k : Call A K L) : World ρ ω A K L Q :=
  { w with calls := w.calls ++ [k] }

/-- The logger's `Infod`. -/
def World.Infod (w : World ρ ω A K L Q) (err : Error) (message : String) :
    World ρ ω A K L Q :=
  { w with log := w.log ++ [⟨Severity.info, err, message⟩] }

/-- The logger's `Warnd`. -/
def World.Warnd (w : World ρ ω A K L Q) (err : Error) (message : String) :
    World ρ ω A K L Q :=
  { w with log := w.log ++ [⟨Severity.warn, err, message⟩] }

/-- The logger's `Errord`. -/
def World.Errord (w : World ρ ω A K L Q) (err : Error) (message : String) :
    World ρ ω A K L Q :=
  { w with log := w.log ++ [⟨Severity.error, err, message⟩] }

/-- The send `c.runActions <- item`, a plain blocking send with no `select`
around it: `none` when the channel takes no further send, so that the send
never completes; otherwise the world in which the channel has taken the
item. -/
def World.send (w : World ρ ω A K L Q) (item : DepotRunAction L Q) :
    Option (World ρ ω A K L Q) :=
  if w.runActions.room = 0 then none
  else some { w with runActions := ⟨w.runActions.sent ++ [item], w.runActions.room - 1⟩ }

/-- The declaration `var result string`: a fresh slot holding the empty
string. -/
def World.newSlot (w : World ρ ω A K L Q) : World ρ ω A K L Q :=
  { w with slots := w.slots ++ [""] }

/-- `RunContainer(guid, actions, completeURL)`: how the call ends, and the
world after the call (the world in which the call is held, when it does not
return). -/
def RunContainer (c : client ρ ω A K S Q L) (guid : String) (actions : List A)
    (completeURL : String) (w : World ρ ω A K L Q) :
    Outcome × World ρ ω A K L Q :=
  let w1 := w.call (Call.FindByGuid guid)
  match c.registry.FindByGuid w.registry guid with
  | .error err =>
    (Outcome.returned (some Error.ContainerNotFound),
      w1.Infod err "executor.run-actions.container-not-found")
  | .ok registration =>
    let w2 := w1.call (Call.Lookup registration.ContainerHandle)
    match c.wardenClient.Lookup w.warden registration.ContainerHandle with
    | .error err =>
      (Outcome.returned (some err), w2.Infod err "executor.run-actions.lookup-failed")
    | .ok container =>
      let result := w2.slots.length
      let w3 := w2.newSlot
      let w4 := w3.call (Call.StepsFor registration.Log actions container result)
      match c.transformer.StepsFor registration.Log actions container result with
      | .error err =>
        (Outcome.returned (some Error.StepsInvalid),
          w4.Warnd err "executor.run-actions.steps-invalid")
      | .ok steps =>
        match w4.send
          { CompleteURL := completeURL
            Registration := registration
            Sequence := c.sequenceNew steps
            Result := result } with
        | none => (Outcome.blocked, w4)
        | some w5 => (Outcome.returned none, w5)

/-- `handleDeleteError(err, logger)`: the returned error and the world with
the record written. -/
def handleDeleteError (err : Error) (w : World ρ ω A K L Q) :
    Option Error × World ρ ω A K L Q :=
  if err = Error.ErrContainerNotFound then
    (some Error.ContainerNotFound, w.Infod err "executor.delete-container.not-found")
  else
    (some err, w.Errord err "executor.delete-container.failed")

/-- The tail of `DeleteContainer`, from `c.registry.Delete(guid)` on. -/
def deleteFromRegistry (c : client ρ ω A K S Q L) (guid : String)
    (w : World ρ ω A K L Q) : Option Error × World ρ ω A K L Q :=
  let d := c.registry.Delete w.registry guid
  let w1 := { w.call (Call.Delete guid) with registry := d.2 }
  match d.1 with
  | some err => handleDeleteError err w1
  | none => (none, w1)

/-- `DeleteContainer(guid)`: the returned error (`none` for nil) and the world
after the call. -/
def DeleteContainer (c : client ρ ω A K S Q L) (guid : String)
    (w : World ρ ω A K L Q) : Option Error × World ρ ω A K L Q :=
  let w1 := w.call (Call.FindByGuid guid)
  match c.registry.FindByGuid w.registry guid with
  | .error err => handleDeleteError err w1
  | .ok registration =>
    if registration.ContainerHandle ≠ "" then
      let d := c.wardenClient.Destroy w1.warden registration.ContainerHandle
      let w2 := { w1.call (Call.Destroy registration.ContainerHandle) with warden := d.2 }
      match d.1 with
      | some err => handleDeleteError err w2
      | none => deleteFromRegistry c guid w2
    else
      deleteFromRegistry c guid w1

/-- `Ping()`: the returned error and the world after the call. -/
def Ping (c : client ρ ω A K S Q L) (w : World ρ ω A K L Q) :
    Option Error × World ρ ω A K L Q :=
  (c.wardenClient.Ping w.warden, w.call Call.Ping)

/-! ## Sample collaborators

Small in-memory collaborators at which the theorems below are instantiated. -/

/-- Modelled from the spec: the registry package is not among the sources.  An
in-memory registry as the spec's interface section describes one: lookup of a
guid answers its registration or the not-found sentinel, delete removes the
entry or answers the not-found sentinel. -/
def memRegistry : Registry (List (Registration String)) String where
  FindByGuid := fun s guid =>
    match s.find? (fun r => r.Guid == guid) with
    | some r => .ok r
    | none => .error Error.ErrContainerNotFound
  Delete := fun s guid =>
    if s.any (fun r => r.Guid == guid) then
      (none, s.filter (fun r => r.Guid != guid))
    else
      (some Error.ErrContainerNotFound, s)

/-- State of the sample backend: whether it can be reached, and the handles of
its live containers. -/
structure Backend where
  reachable : Bool
  handles : List String
  deriving DecidableEq, Repr

/-- Modelled from the spec: the warden client is an external library.  A
backend that refuses every request while it cannot be reached, and otherwise
knows the handles of its live containers; a container is named by its
handle. -/
def memWarden : WardenClient Backend String where
  Lookup := fun s handle =>
    if s.reachable = false then .error (Error.other "connection refused")
    else if handle ∈ s.handles then .ok handle
    else .error (Error.other "unknown handle")
  Destroy := fun s handle =>
    if s.reachable = false then (some (Error.other "connection refused"), s)
    else if handle ∈ s.handles then (none, { s with handles := s.handles.erase handle })
    else (some (Error.other "unknown handle"), s)
  Ping := fun s =>
    if s.reachable = false then some (Error.other "connection refused") else none

/-- Modelled from the spec: the transformer package is not among the sources.
Actions and steps are numbers; the action `0` is rejected, every other action
becomes the step of the same number. -/
def memTransformer : Transformer Nat String Nat String where
  StepsFor := fun _ actions _ _ =>
    if 0 ∈ actions then .error (Error.other "unsupported action") else .ok actions

/-- A client over the sample collaborators; a sequence is the list of its
steps. -/
def memClient : client (List (Registration String)) Backend Nat String Nat (List Nat) String where
  wardenClient := memWarden
  registry := memRegistry
  transformer := memTransformer
  sequenceNew := fun steps => steps

/-- A world with three registrations: `abc` with the live handle `h1`, `fresh`
with no handle yet, and `gone` whose handle `h9` the backend does not know.
Its dispatch channel is empty and takes one send. -/
def memWorld : World (List (Registration String)) Backend Nat String String (List Nat) where
  registry := [⟨"abc", "h1", "log-abc"⟩, ⟨"fresh", "", "log-fresh"⟩, ⟨"gone", "h9", "log-gone"⟩]
  warden := ⟨true, ["h1"]⟩
  runActions := ⟨[], 1⟩
  log := []
  calls := []
  slots := []

/-- The sample world with a dispatch channel that takes no send: an unbuffered
channel that nobody reads. -/
def memWorldFull : World (List (Registration String)) Backend Nat String String (List Nat) :=
  { memWorld with runActions := ⟨[], 0⟩ }

/-- The sample world with the backend out of reach. -/
def memWorldDown : World (List (Registration String)) Backend Nat String String (List Nat) :=
  { memWorld with warden := ⟨false, ["h1"]⟩ }

/-- The severity that the specification's error-handling section gives the log
record of a failed call, read off the error the call returns: informational
for the not-found outcome, warning for a rejected action list, error for every
other failure.  This follows the specification's words, not the source; it is
compared with the source below. -/
def specSeverity : Error → Severity
  | Error.ContainerNotFound => Severity.info
  | Error.StepsInvalid => Severity.warn
  | _ => Severity.error

/-! ## RunContainer -/

/-- C1 as stated fails: on the sample world whose dispatch channel takes no
send, the registry lookup of `abc`, the warden lookup of its handle and the
transformer on `[1, 2]` all succeed, yet `RunContainer` does not return nil: it
is held in the send, and the channel has received nothing. -/
theorem RunContainer_blocked_in_send :
    memClient.registry.FindByGuid memWorldFull.registry "abc" =
      .ok ⟨"abc", "h1", "log-abc"⟩ ∧
    memClient.wardenClient.Lookup memWorldFull.warden "h1" = .ok "h1" ∧
    memClient.transformer.StepsFor "log-abc" [1, 2] "h1" memWorldFull.slots.length =
      .ok [1, 2] ∧
    (RunContainer memClient "abc" [1, 2] "http://cb" memWorldFull).1 = Outcome.blocked ∧
    (RunContainer memClient "abc" [1, 2] "http://cb" memWorldFull).1 ≠
      Outcome.returned none ∧
    (RunContainer memClient "abc" [1, 2] "http://cb" memWorldFull).2.runActions.sent = [] :=
  ⟨rfl, rfl, rfl, rfl, by decide, rfl⟩

/-- C1 amended: when the registry lookup of the guid gives a registration `r`,
the warden lookup of the handle of `r` gives a container `k`, the transformer
succeeds on the log identity of `r`, the actions and `k` with steps `s`, and the
dispatch channel takes the send, then `RunContainer` returns nil and exactly
one item is added to the dispatch channel: the one with the callback address
passed in, the registration `r` and the sequence built from `s`. -/
theorem RunContainer_success (c : client ρ ω A K S Q L) (guid : String)
    (actions : List A) (completeURL : String) (w : World ρ ω A K L Q)
    (r : Registration L) (k : K) (s : List S)
    (hreg : c.registry.FindByGuid w.registry guid = .ok r)
    (hlook : c.wardenClient.Lookup w.warden r.ContainerHandle = .ok k)
    (hsteps : c.transformer.StepsFor r.Log actions k w.slots.length = .ok s)
    (hroom : 0 < w.runActions.room) :
    (RunContainer c guid actions completeURL w).1 = Outcome.returned none ∧
    (RunContainer c guid actions completeURL w).2.runActions.sent =
      w.runActions.sent ++
        [{ CompleteURL := completeURL, Registration := r,
           Sequence := c.sequenceNew s, Result := w.slots.length }] ∧
    (RunContainer c guid actions completeURL w).2.runActions.room =
      w.runActions.room - 1 := by
  have hne : w.runActions.room ≠ 0 := Nat.pos_iff_ne_zero.mp hroom
  simp [RunContainer, hreg, hlook, hsteps, World.call, World.newSlot, World.send, hne]

/-- Instance of the amended C1 on the sample world: guid `abc`, actions
`[1, 2]`, a channel that takes one send. -/
theorem RunContainer_success_witness :
    (RunContainer memClient "abc" [1, 2] "http://cb" memWorld).1 = Outcome.returned none ∧
    (RunContainer memClient "abc" [1, 2] "http://cb" memWorld).2.runActions.sent =
      memWorld.runActions.sent ++
        [{ CompleteURL := "http://cb", Registration := ⟨"abc", "h1", "log-abc"⟩,
           Sequence := memClient.sequenceNew [1, 2], Result := memWorld.slots.length }] ∧
    (RunContainer memClient "abc" [1, 2] "http://cb" memWorld).2.runActions.room =
      memWorld.runActions.room - 1 :=
  RunContainer_success memClient "abc" [1, 2] "http://cb" memWorld
    ⟨"abc", "h1", "log-abc"⟩ "h1" [1, 2] rfl rfl rfl (by decide)

/-- C2: when the registry lookup of the guid fails, with whatever error,
`RunContainer` returns `ContainerNotFound`, sends nothing on the dispatch
channel, and makes no call besides the registry lookup: neither the warden
client nor the transformer is called. -/
theorem RunContainer_registry_failure (c : client ρ ω A K S Q L) (guid : String)
    (actions : List A) (completeURL : String) (w : World ρ ω A K L Q) (e : Error)
    (hreg : c.registry.FindByGuid w.registry guid = .error e) :
    (RunContainer c guid actions completeURL w).1 =
      Outcome.returned (some Error.ContainerNotFound) ∧
    (RunContainer c guid actions completeURL w).2.runActions = w.runActions ∧
    (RunContainer c guid actions completeURL w).2.calls =
      w.calls ++ [Call.FindByGuid guid] := by
  simp [RunContainer, hreg, World.call, World.Infod]

/-- Instance of C2 on the sample world: the guid `missing` has no
registration. -/
theorem RunContainer_registry_failure_witness :
    (RunContainer memClient "missing" [1, 2] "http://cb" memWorld).1
      = Outcome.returned (some Error.ContainerNotFound) ∧
    (RunContainer memClient "missing" [1, 2] "http://cb" memWorld).2.runActions
      = memWorld.runActions ∧
    (RunContainer memClient "missing" [1, 2] "http://cb" memWorld).2.calls
      = memWorld.calls ++ [Call.FindByGuid "missing"] :=
  RunContainer_registry_failure memClient "missing" [1, 2] "http://cb" memWorld
    Error.ErrContainerNotFound rfl

/-- C3: when the guid has a registration `r` and the warden lookup of the
handle of `r` fails with error `e`, `RunContainer` returns `e` itself, sends
nothing on the dispatch channel, and makes no call besides the two lookups: the
transformer is not called. -/
theorem RunContainer_lookup_failure (c : client ρ ω A K S Q L) (guid : String)
    (actions : List A) (completeURL : String) (w : World ρ ω A K L Q)
    (r : Registration L) (e : Error)
    (hreg : c.registry.FindByGuid w.registry guid = .ok r)
    (hlook : c.wardenClient.Lookup w.warden r.ContainerHandle = .error e) :
    (RunContainer c guid actions completeURL w).1 = Outcome.returned (some e) ∧
    (RunContainer c guid actions completeURL w).2.runActions = w.runActions ∧
    (RunContainer c guid actions completeURL w).2.calls =
      w.calls ++ [Call.FindByGuid guid, Call.Lookup r.ContainerHandle] := by
  simp [RunContainer, hreg, hlook, World.call, World.Infod]

/-- Instance of C3 on the sample world: the handle of `gone` is unknown to the
backend. -/
theorem RunContainer_lookup_failure_witness :
    (RunContainer memClient "gone" [1, 2] "http://cb" memWorld).1
      = Outcome.returned (some (Error.other "unknown handle")) ∧
    (RunContainer memClient "gone" [1, 2] "http://cb" memWorld).2.runActions
      = memWorld.runActions ∧
    (RunContainer memClient "gone" [1, 2] "http://cb" memWorld).2.calls
      = memWorld.calls ++ [Call.FindByGuid "gone", Call.Lookup "h9"] :=
  RunContainer_lookup_failure memClient "gone" [1, 2] "http://cb" memWorld
    ⟨"gone", "h9", "log-gone"⟩ (Error.other "unknown handle") rfl rfl

/-- C4: when the guid has a registration `r`, the warden lookup of its handle
gives a container `k`, and the transformer fails on the actions, with whatever
error, `RunContainer` returns `StepsInvalid` and sends nothing on the dispatch
channel. -/
theorem RunContainer_steps_invalid (c : client ρ ω A K S Q L) (guid : String)
    (actions : List A) (completeURL : String) (w : World ρ ω A K L Q)
    (r : Registration L) (k : K) (e : Error)
    (hreg : c.registry.FindByGuid w.registry guid = .ok r)
    (hlook : c.wardenClient.Lookup w.warden r.ContainerHandle = .ok k)
    (hsteps : c.transformer.StepsFor r.Log actions k w.slots.length = .error e) :
    (RunContainer c guid actions completeURL w).1 =
      Outcome.returned (some Error.StepsInvalid) ∧
    (RunContainer c guid actions completeURL w).2.runActions = w.runActions := by
  simp [RunContainer, hreg, hlook, hsteps, World.call, World.newSlot, World.Warnd]

/-- Instance of C4 on the sample world: the action `0` is rejected. -/
theorem RunContainer_steps_invalid_witness :
    (RunContainer memClient "abc" [1, 0] "http://cb" memWorld).1
      = Outcome.returned (some Error.StepsInvalid) ∧
    (RunContainer memClient "abc" [1, 0] "http://cb" memWorld).2.runActions
      = memWorld.runActions :=
  RunContainer_steps_invalid memClient "abc" [1, 0] "http://cb" memWorld
    ⟨"abc", "h1", "log-abc"⟩ "h1" (Error.other "unsupported action") rfl rfl rfl

/-! ## DeleteContainer -/

/-- Result of `handleDeleteError`: the translated error. -/
theorem handleDeleteError_fst (e : Error) (w : World ρ ω A K L Q) :
    (handleDeleteError e w).1 =
      some (if e = Error.ErrContainerNotFound then Error.ContainerNotFound else e) := by
  unfold handleDeleteError
  split <;> rfl

/-- What `handleDeleteError` leaves alone: everything but the log. -/
theorem handleDeleteError_frame (e : Error) (w : World ρ ω A K L Q) :
    (handleDeleteError e w).2.registry = w.registry ∧
    (handleDeleteError e w).2.warden = w.warden ∧
    (handleDeleteError e w).2.calls = w.calls ∧
    (handleDeleteError e w).2.runActions = w.runActions := by
  unfold handleDeleteError
  split <;> simp [World.Infod, World.Errord]

/-- The record `handleDeleteError` writes. -/
theorem handleDeleteError_log (e : Error) (w : World ρ ω A K L Q) :
    ∃ message, (handleDeleteError e w).2.log =
      w.log ++ [⟨if e = Error.ErrContainerNotFound then Severity.info else Severity.error,
                 e, message⟩] := by
  unfold handleDeleteError
  split
  · exact ⟨"executor.delete-container.not-found", by simp [World.Infod]⟩
  · exact ⟨"executor.delete-container.failed", by simp [World.Errord]⟩

/-- C5: for a guid whose registration `r` has a non-empty handle,
`DeleteContainer` calls the warden client's destroy on that handle right after
the lookup and before any registry delete.  When destroy succeeds the registry
delete follows; when destroy fails the registry delete is not called, the
returned error is not nil, and the registry is unchanged and still answers the
lookup of the guid with `r`. -/
theorem DeleteContainer_destroy_first (c : client ρ ω A K S Q L) (guid : String)
    (w : World ρ ω A K L Q) (r : Registration L)
    (hreg : c.registry.FindByGuid w.registry guid = .ok r)
    (hhandle : r.ContainerHandle ≠ "") :
    ((c.wardenClient.Destroy w.warden r.ContainerHandle).1 = none →
      (DeleteContainer c guid w).2.calls =
        w.calls ++ [Call.FindByGuid guid, Call.Destroy r.ContainerHandle,
                    Call.Delete guid]) ∧
    ((c.wardenClient.Destroy w.warden r.ContainerHandle).1 ≠ none →
      (DeleteContainer c guid w).2.calls =
        w.calls ++ [Call.FindByGuid guid, Call.Destroy r.ContainerHandle] ∧
      (DeleteContainer c guid w).1 ≠ none ∧
      (DeleteContainer c guid w).2.registry = w.registry ∧
      c.registry.FindByGuid (DeleteContainer c guid w).2.registry guid = .ok r) := by
  constructor
  · intro hd
    simp only [DeleteContainer, hreg, hhandle, ne_eq, not_false_eq_true, if_true,
      World.call, hd, deleteFromRegistry]
    cases hdel : (c.registry.Delete w.registry guid).1 with
    | none => simp
    | some e => simp [(handleDeleteError_frame e _).2.2.1]
  · intro hd
    cases hde : (c.wardenClient.Destroy w.warden r.ContainerHandle).1 with
    | none => exact absurd hde hd
    | some e =>
      simp only [DeleteContainer, hreg, hhandle, ne_eq, not_false_eq_true, if_true,
        World.call, hde]
      refine ⟨?_, ?_, ?_, ?_⟩
      · simp [(handleDeleteError_frame e _).2.2.1]
      · simp [handleDeleteError_fst]
      · simp [(handleDeleteError_frame e _).1]
      · simp [(handleDeleteError_frame e _).1, hreg]

/-- Instance of C5 on the sample world: the registration `gone` has the
handle `h9`, whose destroy fails. -/
theorem DeleteContainer_destroy_first_witness :
    (DeleteContainer memClient "gone" memWorld).2.calls =
      memWorld.calls ++ [Call.FindByGuid "gone", Call.Destroy "h9"] ∧
    (DeleteContainer memClient "gone" memWorld).1 ≠ none ∧
    (DeleteContainer memClient "gone" memWorld).2.registry = memWorld.registry ∧
    memClient.registry.FindByGuid (DeleteContainer memClient "gone" memWorld).2.registry
      "gone" = .ok ⟨"gone", "h9", "log-gone"⟩ :=
  (DeleteContainer_destroy_first memClient "gone" memWorld ⟨"gone", "h9", "log-gone"⟩
    rfl (by decide)).2 (by decide)

/-- C6: for a guid whose registration has an empty handle, `DeleteContainer`
makes exactly two calls, the registry lookup and the registry delete, so the
warden client's destroy is never called and the backend is unchanged; and it
returns nil whenever the registry delete succeeds. -/
theorem DeleteContainer_empty_handle (c : client ρ ω A K S Q L) (guid : String)
    (w : World ρ ω A K L Q) (r : Registration L)
    (hreg : c.registry.FindByGuid w.registry guid = .ok r)
    (hhandle : r.ContainerHandle = "") :
    (DeleteContainer c guid w).2.calls =
      w.calls ++ [Call.FindByGuid guid, Call.Delete guid] ∧
    (DeleteContainer c guid w).2.warden = w.warden ∧
    ((c.registry.Delete w.registry guid).1 = none → (DeleteContainer c guid w).1 = none) := by
  refine ⟨?_, ?_, ?_⟩
  · simp only [DeleteContainer, hreg, hhandle, ne_eq, not_true_eq_false, if_false,
      World.call, deleteFromRegistry]
    cases hdel : (c.registry.Delete w.registry guid).1 with
    | none => simp
    | some e => simp [(handleDeleteError_frame e _).2.2.1]
  · simp only [DeleteContainer, hreg, hhandle, ne_eq, not_true_eq_false, if_false,
      World.call, deleteFromRegistry]
    cases hdel : (c.registry.Delete w.registry guid).1 with
    | none => simp
    | some e => simp [(handleDeleteError_frame e _).2.1]
  · intro hd
    simp [DeleteContainer, hreg, hhandle, World.call, deleteFromRegistry, hd]

/-- Instance of C6 on the sample world: the registration `fresh` has no handle
and its registry delete succeeds. -/
theorem DeleteContainer_empty_handle_witness :
    (DeleteContainer memClient "fresh" memWorld).2.calls =
      memWorld.calls ++ [Call.FindByGuid "fresh", Call.Delete "fresh"] ∧
    (DeleteContainer memClient "fresh" memWorld).1 = none :=
  ⟨(DeleteContainer_empty_handle memClient "fresh" memWorld ⟨"fresh", "", "log-fresh"⟩
      rfl rfl).1,
   (DeleteContainer_empty_handle memClient "fresh" memWorld ⟨"fresh", "", "log-fresh"⟩
      rfl rfl).2.2 rfl⟩

/-- C7: whichever step of `DeleteContainer` fails with an error `e` (the
registry lookup, the destroy of a non-empty handle, or the registry delete
reached after them), `DeleteContainer` returns `ContainerNotFound` when `e` is
the registry's not-found sentinel and `e` itself otherwise; and when it is the
lookup that fails, the lookup is the only call made: no destroy, no registry
delete. -/
theorem DeleteContainer_error_translation (c : client ρ ω A K S Q L) (guid : String)
    (w : World ρ ω A K L Q) (e : Error)
    (hfail :
      c.registry.FindByGuid w.registry guid = .error e ∨
      (∃ r, c.registry.FindByGuid w.registry guid = .ok r ∧ r.ContainerHandle ≠ "" ∧
        (c.wardenClient.Destroy w.warden r.ContainerHandle).1 = some e) ∨
      (∃ r, c.registry.FindByGuid w.registry guid = .ok r ∧
        (r.ContainerHandle = "" ∨
          (c.wardenClient.Destroy w.warden r.ContainerHandle).1 = none) ∧
        (c.registry.Delete w.registry guid).1 = some e)) :
    (DeleteContainer c guid w).1 =
      some (if e = Error.ErrContainerNotFound then Error.ContainerNotFound else e) ∧
    (c.registry.FindByGuid w.registry guid = .error e →
      (DeleteContainer c guid w).2.calls = w.calls ++ [Call.FindByGuid guid]) := by
  constructor
  · rcases hfail with h | ⟨r, h, hh, hd⟩ | ⟨r, h, hh, hd⟩
    · simp [DeleteContainer, h, handleDeleteError_fst]
    · simp [DeleteContainer, h, hh, hd, World.call, handleDeleteError_fst]
    · by_cases hempty : r.ContainerHandle = ""
      · simp [DeleteContainer, h, hempty, hd, World.call, deleteFromRegistry,
          handleDeleteError_fst]
      · have hnone := hh.resolve_left hempty
        simp [DeleteContainer, h, hempty, hd, hnone, World.call, deleteFromRegistry,
          handleDeleteError_fst]
  · intro h
    simp [DeleteContainer, h, (handleDeleteError_frame e _).2.2.1, World.call]

/-- Instance of C7 on the sample world: the lookup of `missing` fails with the
not-found sentinel. -/
theorem DeleteContainer_error_translation_witness :
    (DeleteContainer memClient "missing" memWorld).1 = some Error.ContainerNotFound ∧
    (DeleteContainer memClient "missing" memWorld).2.calls =
      memWorld.calls ++ [Call.FindByGuid "missing"] :=
  ⟨(DeleteContainer_error_translation memClient "missing" memWorld
      Error.ErrContainerNotFound (Or.inl rfl)).1,
   (DeleteContainer_error_translation memClient "missing" memWorld
      Error.ErrContainerNotFound (Or.inl rfl)).2 rfl⟩

/-- A `DeleteContainer` that returns nil found a registration, reached the
registry delete, which succeeded, and left the registry in the state that
delete produced. -/
theorem DeleteContainer_nil (c : client ρ ω A K S Q L) (guid : String)
    (w : World ρ ω A K L Q) (h : (DeleteContainer c guid w).1 = none) :
    (c.registry.Delete w.registry guid).1 = none ∧
    (DeleteContainer c guid w).2.registry = (c.registry.Delete w.registry guid).2 := by
  unfold DeleteContainer at h ⊢
  cases hreg : c.registry.FindByGuid w.registry guid with
  | error e => simp [hreg, handleDeleteError_fst] at h
  | ok r =>
    simp only [hreg] at h ⊢
    by_cases hempty : r.ContainerHandle = ""
    · simp only [hempty, ne_eq, not_true_eq_false, if_false, deleteFromRegistry,
        World.call] at h ⊢
      cases hdel : (c.registry.Delete w.registry guid).1 with
      | none => simp [hdel]
      | some e => simp [hdel, handleDeleteError_fst] at h
    · simp only [hempty, ne_eq, not_false_eq_true, if_true, World.call] at h ⊢
      cases hde : (c.wardenClient.Destroy w.warden r.ContainerHandle).1 with
      | some e => simp [hde, handleDeleteError_fst] at h
      | none =>
        simp only [hde, deleteFromRegistry, World.call] at h ⊢
        cases hdel : (c.registry.Delete w.registry guid).1 with
        | none => simp [hdel]
        | some e => simp [hdel, handleDeleteError_fst] at h

/-- C8: take a registry that answers the lookup of a guid it does not hold
(`present` is false) with its not-found sentinel, and whose successful delete
leaves the guid not held.  If a first `DeleteContainer` on a guid returns nil,
a second one made on the resulting world returns `ContainerNotFound`, and its
only call is the registry lookup: no destroy, no registry delete. -/
theorem DeleteContainer_twice (c : client ρ ω A K S Q L) (present : ρ → String → Prop)
    (guid : String) (w : World ρ ω A K L Q)
    (habsent : ∀ s g, ¬ present s g →
      c.registry.FindByGuid s g = .error Error.ErrContainerNotFound)
    (hremove : ∀ s g, (c.registry.Delete s g).1 = none →
      ¬ present (c.registry.Delete s g).2 g)
    (hfirst : (DeleteContainer c guid w).1 = none) :
    (DeleteContainer c guid (DeleteContainer c guid w).2).1 =
      some Error.ContainerNotFound ∧
    (DeleteContainer c guid (DeleteContainer c guid w).2).2.calls =
      (DeleteContainer c guid w).2.calls ++ [Call.FindByGuid guid] := by
  obtain ⟨hdel, hstate⟩ := DeleteContainer_nil c guid w hfirst
  have hlook : c.registry.FindByGuid (DeleteContainer c guid w).2.registry guid =
      .error Error.ErrContainerNotFound := by
    rw [hstate]
    exact habsent _ _ (hremove _ _ hdel)
  constructor
  · rw [DeleteContainer]
    simp [hlook, handleDeleteError_fst]
  · rw [DeleteContainer]
    simp [hlook, (handleDeleteError_frame _ _).2.2.1, World.call]

/-- The sample registry answers the lookup of a guid it does not hold with the
not-found sentinel. -/
theorem memRegistry_absent (s : List (Registration String)) (g : String)
    (h : ¬ ∃ r ∈ s, r.Guid = g) :
    memClient.registry.FindByGuid s g = .error Error.ErrContainerNotFound := by
  have hnone : s.find? (fun r => r.Guid == g) = none := by
    rw [List.find?_eq_none]
    intro r hr hg
    exact h ⟨r, hr, by simpa using hg⟩
  simp [memClient, memRegistry, hnone]

/-- A successful delete on the sample registry leaves the guid not held. -/
theorem memRegistry_remove (s : List (Registration String)) (g : String)
    (h : (memClient.registry.Delete s g).1 = none) :
    ¬ ∃ r ∈ (memClient.registry.Delete s g).2, r.Guid = g := by
  simp only [memClient, memRegistry] at h ⊢
  split at h
  · rename_i hany
    simp [hany]
  · simp at h

/-- Instance of C8 on the sample world: `fresh` is deleted, then deleted
again. -/
theorem DeleteContainer_twice_witness :
    (DeleteContainer memClient "fresh" (DeleteContainer memClient "fresh" memWorld).2).1 =
      some Error.ContainerNotFound ∧
    (DeleteContainer memClient "fresh" (DeleteContainer memClient "fresh" memWorld).2).2.calls =
      (DeleteContainer memClient "fresh" memWorld).2.calls ++ [Call.FindByGuid "fresh"] :=
  DeleteContainer_twice memClient (fun s g => ∃ r ∈ s, r.Guid = g) "fresh" memWorld
    memRegistry_absent memRegistry_remove rfl

/-! ## Ping -/

/-- C9: `Ping` returns exactly what the warden client's ping returns, nil or
the same error; its only call is that ping, so the registry is not called; it
sends nothing on the dispatch channel, writes nothing to the log, and leaves
the registry and the backend as they were. -/
theorem Ping_passthrough (c : client ρ ω A K S Q L) (w : World ρ ω A K L Q) :
    (Ping c w).1 = c.wardenClient.Ping w.warden ∧
    (Ping c w).2.calls = w.calls ++ [Call.Ping] ∧
    (Ping c w).2.runActions = w.runActions ∧
    (Ping c w).2.log = w.log ∧
    (Ping c w).2.registry = w.registry ∧
    (Ping c w).2.warden = w.warden := by
  simp [Ping, World.call]

/-- The whole effect of `handleDeleteError` on result and log, in the shape the
logging theorem uses. -/
theorem handleDeleteError_record (e : Error) (w : World ρ ω A K L Q) :
    ∃ entry : LogEntry, entry.error = e ∧
      (handleDeleteError e w).1 ≠ none ∧
      (handleDeleteError e w).2.log = w.log ++ [entry] ∧
      entry.level =
        (if entry.error = Error.ErrContainerNotFound then Severity.info
         else Severity.error) ∧
      (handleDeleteError e w).1 =
        some (if entry.error = Error.ErrContainerNotFound then Error.ContainerNotFound
              else entry.error) := by
  obtain ⟨message, hlog⟩ := handleDeleteError_log e w
  exact ⟨_, rfl, by simp [handleDeleteError_fst], hlog, rfl, handleDeleteError_fst e w⟩

/-! ## Logging -/

/-- C10 as stated fails: on the sample world with the backend out of reach,
`RunContainer` on `abc` returns the backend's error `connection refused`
unchanged, which is neither the not-found outcome nor `StepsInvalid`, so the
specification's rule asks for severity error; the one record written is
informational. -/
theorem RunContainer_lookup_failure_logged_info :
    (RunContainer memClient "abc" [1, 2] "http://cb" memWorldDown).1 =
      Outcome.returned (some (Error.other "connection refused")) ∧
    (RunContainer memClient "abc" [1, 2] "http://cb" memWorldDown).2.log =
      [⟨Severity.info, Error.other "connection refused",
        "executor.run-actions.lookup-failed"⟩] ∧
    specSeverity (Error.other "connection refused") = Severity.error ∧
    ¬ (∀ e entry, (RunContainer memClient "abc" [1, 2] "http://cb" memWorldDown).1 =
          Outcome.returned (some e) →
        entry ∈ (RunContainer memClient "abc" [1, 2] "http://cb" memWorldDown).2.log →
        entry.level = specSeverity e) := by
  refine ⟨rfl, rfl, rfl, ?_⟩
  intro h
  have := h (Error.other "connection refused")
    ⟨Severity.info, Error.other "connection refused", "executor.run-actions.lookup-failed"⟩
    rfl (by decide)
  exact absurd this (by decide)

/-- C10 amended: a call of `RunContainer` or `DeleteContainer` either returns
no error (it returns nil or, for `RunContainer`, is held in the send) and
writes nothing to the log, or returns an error and appends exactly one
record.  In `RunContainer` the record is informational when the registry lookup
fails (and `ContainerNotFound` is returned), informational as well when the
warden lookup fails (and its error is returned unchanged), and a warning when
the transformer rejects the actions (and `StepsInvalid` is returned).  In
`DeleteContainer` the record carries the error of the step that failed; it is
informational when that error is the registry's not-found sentinel (and
`ContainerNotFound` is returned) and of severity error otherwise (and the error
is returned unchanged). -/
theorem logging_by_cause (c : client ρ ω A K S Q L) (guid : String)
    (actions : List A) (completeURL : String) (w : World ρ ω A K L Q) :
    ((((RunContainer c guid actions completeURL w).1 = Outcome.returned none ∨
          (RunContainer c guid actions completeURL w).1 = Outcome.blocked) ∧
        (RunContainer c guid actions completeURL w).2.log = w.log) ∨
      ∃ entry, (∃ e, (RunContainer c guid actions completeURL w).1 =
          Outcome.returned (some e)) ∧
        (RunContainer c guid actions completeURL w).2.log = w.log ++ [entry] ∧
        ((c.registry.FindByGuid w.registry guid = .error entry.error ∧
            entry.level = Severity.info ∧
            (RunContainer c guid actions completeURL w).1 =
              Outcome.returned (some Error.ContainerNotFound)) ∨
          (∃ r, c.registry.FindByGuid w.registry guid = .ok r ∧
            c.wardenClient.Lookup w.warden r.ContainerHandle = .error entry.error ∧
            entry.level = Severity.info ∧
            (RunContainer c guid actions completeURL w).1 =
              Outcome.returned (some entry.error)) ∨
          (∃ r k, c.registry.FindByGuid w.registry guid = .ok r ∧
            c.wardenClient.Lookup w.warden r.ContainerHandle = .ok k ∧
            c.transformer.StepsFor r.Log actions k w.slots.length = .error entry.error ∧
            entry.level = Severity.warn ∧
            (RunContainer c guid actions completeURL w).1 =
              Outcome.returned (some Error.StepsInvalid)))) ∧
    (((DeleteContainer c guid w).1 = none ∧ (DeleteContainer c guid w).2.log = w.log) ∨
      ∃ entry, (DeleteContainer c guid w).1 ≠ none ∧
        (DeleteContainer c guid w).2.log = w.log ++ [entry] ∧
        entry.level =
          (if entry.error = Error.ErrContainerNotFound then Severity.info
           else Severity.error) ∧
        (DeleteContainer c guid w).1 =
          some (if entry.error = Error.ErrContainerNotFound then Error.ContainerNotFound
                else entry.error) ∧
        (c.registry.FindByGuid w.registry guid = .error entry.error ∨
          (∃ r, c.registry.FindByGuid w.registry guid = .ok r ∧ r.ContainerHandle ≠ "" ∧
            (c.wardenClient.Destroy w.warden r.ContainerHandle).1 = some entry.error) ∨
          (∃ r, c.registry.FindByGuid w.registry guid = .ok r ∧
            (r.ContainerHandle = "" ∨
              (c.wardenClient.Destroy w.warden r.ContainerHandle).1 = none) ∧
            (c.registry.Delete w.registry guid).1 = some entry.error))) := by
  constructor
  · cases hreg : c.registry.FindByGuid w.registry guid with
    | error e =>
      right
      exact ⟨⟨Severity.info, e, "executor.run-actions.container-not-found"⟩,
        by simp [RunContainer, hreg, World.call, World.Infod]⟩
    | ok r =>
      cases hlook : c.wardenClient.Lookup w.warden r.ContainerHandle with
      | error e =>
        right
        exact ⟨⟨Severity.info, e, "executor.run-actions.lookup-failed"⟩,
          by simp [RunContainer, hreg, hlook, World.call, World.Infod]⟩
      | ok k =>
        cases hsteps : c.transformer.StepsFor r.Log actions k w.slots.length with
        | error e =>
          right
          exact ⟨⟨Severity.warn, e, "executor.run-actions.steps-invalid"⟩,
            by simp [RunContainer, hreg, hlook, hsteps, World.call, World.newSlot,
              World.Warnd]⟩
        | ok steps =>
          left
          by_cases hroom : w.runActions.room = 0
          · simp [RunContainer, hreg, hlook, hsteps, World.call, World.newSlot,
              World.send, hroom]
          · simp [RunContainer, hreg, hlook, hsteps, World.call, World.newSlot,
              World.send, hroom]
  · cases hreg : c.registry.FindByGuid w.registry guid with
    | error e =>
      right
      obtain ⟨entry, he, h1, h2, h3, h4⟩ :=
        handleDeleteError_record e (w.call (Call.FindByGuid guid))
      refine ⟨entry, ?_, ?_, h3, ?_, Or.inl (by rw [he])⟩
      · simpa [DeleteContainer, hreg] using h1
      · simpa [DeleteContainer, hreg, World.call] using h2
      · simpa [DeleteContainer, hreg] using h4
    | ok r =>
      have tail : ∀ w1 : World ρ ω A K L Q, w1.registry = w.registry → w1.log = w.log →
          (((deleteFromRegistry c guid w1).1 = none ∧
              (deleteFromRegistry c guid w1).2.log = w.log) ∨
            ∃ entry : LogEntry, (deleteFromRegistry c guid w1).1 ≠ none ∧
              (deleteFromRegistry c guid w1).2.log = w.log ++ [entry] ∧
              entry.level =
                (if entry.error = Error.ErrContainerNotFound then Severity.info
                 else Severity.error) ∧
              (deleteFromRegistry c guid w1).1 =
                some (if entry.error = Error.ErrContainerNotFound
                      then Error.ContainerNotFound else entry.error) ∧
              (c.registry.Delete w.registry guid).1 = some entry.error) := by
        intro w1 hr hl
        cases hdel : (c.registry.Delete w.registry guid).1 with
        | none =>
          left
          simp [deleteFromRegistry, hr, hdel, World.call, hl]
        | some e =>
          right
          obtain ⟨entry, he, h1, h2, h3, h4⟩ := handleDeleteError_record e
            ({ w1.call (Call.Delete guid) with
                registry := (c.registry.Delete w.registry guid).2 } : World ρ ω A K L Q)
          refine ⟨entry, ?_, ?_, h3, ?_, by rw [he]⟩
          · simpa [deleteFromRegistry, hr, hdel] using h1
          · simpa [deleteFromRegistry, hr, hdel, World.call, hl] using h2
          · simpa [deleteFromRegistry, hr, hdel] using h4
      by_cases hempty : r.ContainerHandle = ""
      · have hD : DeleteContainer c guid w =
            deleteFromRegistry c guid (w.call (Call.FindByGuid guid)) := by
          simp [DeleteContainer, hreg, hempty]
        rw [hD]
        rcases tail (w.call (Call.FindByGuid guid)) rfl rfl with h | ⟨entry, h1, h2, h3, h4, h5⟩
        · exact Or.inl h
        · exact Or.inr ⟨entry, h1, h2, h3, h4, Or.inr (Or.inr ⟨r, rfl, Or.inl hempty, h5⟩)⟩
      · cases hde : (c.wardenClient.Destroy w.warden r.ContainerHandle).1 with
        | some e =>
          right
          obtain ⟨entry, he, h1, h2, h3, h4⟩ := handleDeleteError_record e
            ({ (w.call (Call.FindByGuid guid)).call (Call.Destroy r.ContainerHandle) with
                warden := (c.wardenClient.Destroy w.warden r.ContainerHandle).2 } :
              World ρ ω A K L Q)
          refine ⟨entry, ?_, ?_, h3, ?_, Or.inr (Or.inl ⟨r, rfl, hempty, by rw [he]; exact hde⟩)⟩
          · simpa [DeleteContainer, hreg, hempty, hde, World.call] using h1
          · simpa [DeleteContainer, hreg, hempty, hde, World.call] using h2
          · simpa [DeleteContainer, hreg, hempty, hde, World.call] using h4
        | none =>
          have hD : DeleteContainer c guid w =
              deleteFromRegistry c guid
                ({ (w.call (Call.FindByGuid guid)).call (Call.Destroy r.ContainerHandle) with
                    warden := (c.wardenClient.Destroy w.warden r.ContainerHandle).2 } :
                  World ρ ω A K L Q) := by
            simp [DeleteContainer, hreg, hempty, hde, World.call]
          rw [hD]
          rcases tail
              ({ (w.call (Call.FindByGuid guid)).call (Call.Destroy r.ContainerHandle) with
                  warden := (c.wardenClient.Destroy w.warden r.ContainerHandle).2 } :
                World ρ ω A K L Q) rfl rfl with h | ⟨entry, h1, h2, h3, h4, h5⟩
          · exact Or.inl h
          · exact Or.inr ⟨entry, h1, h2, h3, h4, Or.inr (Or.inr ⟨r, rfl, Or.inr hde, h5⟩)⟩

/-- Instance of the amended C10 on the sample world with the backend out of
reach: `RunContainer` on `abc` and `DeleteContainer` on `abc` both fail there,
the first with an informational record, the second with a record of severity
error. -/
theorem logging_by_cause_witness :
    (RunContainer memClient "abc" [1, 2] "http://cb" memWorldDown).2.log =
      memWorldDown.log ++ [⟨Severity.info, Error.other "connection refused",
        "executor.run-actions.lookup-failed"⟩] ∧
    (DeleteContainer memClient "abc" memWorldDown).2.log =
      memWorldDown.log ++ [⟨Severity.error, Error.other "connection refused",
        "executor.delete-container.failed"⟩] := by
  have h := logging_by_cause memClient "abc" [1, 2] "http://cb" memWorldDown
  rcases h with ⟨hrun, hdel⟩
  constructor
  · rcases hrun with ⟨hnil, _⟩ | ⟨entry, _, hlog, _⟩
    · exact absurd hnil (by decide)
    · rfl
  · rcases hdel with ⟨hnil, _⟩ | ⟨entry, _, hlog, _⟩
    · exact absurd hnil (by decide)
    · rfl

end Executor
